import Mathlib

/-!
Shallow embedding of the daily-message orchestration service
(`app/services/daily_message.py`) of the oura-ai repository, together with
theorems settling the frozen claims about it.

Modelling conventions:
* Dates are day numbers (`ℤ`); `candidate = target - offset` models
  `target - timedelta(days=offset)`, and the injective ISO rendering of a
  date is kept abstract (cache keys are modelled as `(tz_key, date)` pairs,
  which the `f"{tz_key}|{date.isoformat()}"` string encodes injectively).
* Instants (`datetime.now(tz)`) are integer minute counts, so that
  `created_at + timedelta(minutes=ttl)` is `created_at + ttl`.
* Numbers occurring in metric records are exact fractions `Q` (an
  executable numerator/denominator pair, bridged to `ℚ` by `Q.toRat`);
  JSON field values are numeric-or-null (`Val`), since the service only
  tests fields for presence, copies them, and does arithmetic on
  `total_sleep_duration`.
* The external collaborators (Oura client, OpenAI client, zoneinfo
  database, clock) are oracles carried in an `Env`; calls to the Metrics
  Source and the Text Generator are counted so that "performs zero calls"
  is a statement about the model.  The zoneinfo collaborator has three
  outcomes per key (`ZoneLookup`): resolved, `ZoneInfoNotFoundError`
  (the only exception `_get_timezone` catches), or the `ValueError` that
  `ZoneInfo` raises on malformed keys, which propagates uncaught.
-/

/-- An exact fraction with executable integer arithmetic.  The denominator
is kept positive by every operation below when it is positive in the
operands; `Q.toRat` is the semantic bridge to `ℚ`. -/
structure Q where
  num : ℤ
  den : ℤ
deriving DecidableEq, Repr

/-- Semantic value of a fraction. -/
def Q.toRat (q : Q) : ℚ := (q.num : ℚ) / (q.den : ℚ)

/-- Embed an integer. -/
def Q.ofInt (n : ℤ) : Q := ⟨n, 1⟩

/-- Fraction multiplication. -/
def qmul (a b : Q) : Q := ⟨a.num * b.num, a.den * b.den⟩

/-- Fraction subtraction. -/
def qsub (a b : Q) : Q := ⟨a.num * b.den - b.num * a.den, a.den * b.den⟩

/-- Fraction division, normalising the sign into the numerator. -/
def qdiv (a b : Q) : Q :=
  if b.num < 0 then ⟨-(a.num * b.den), a.den * -b.num⟩
  else ⟨a.num * b.den, a.den * b.num⟩

/-- Strict comparison by cross-multiplication; correct when both
denominators are positive. -/
def qltb (a b : Q) : Bool := a.num * b.den < b.num * a.den

/-- Floor of a fraction with positive denominator. -/
def qfloor (q : Q) : ℤ := q.num.fdiv q.den

/-- A JSON-ish field value as stored in an Oura record: either `null`
(Python `None`) or a number. -/
inductive Val where
  | vnull : Val
  | vnum (q : Q) : Val
deriving DecidableEq, Repr

/-- A record (Python dict) from the Oura API: association list of named
fields, in insertion order. -/
abbrev Record := List (String × Val)

/-- First-match association lookup: `some r[k]` when the key is present.
Models membership of a key in a Python dict. -/
def assoc : List (String × Val) → String → Option Val
  | [], _ => none
  | (k', v) :: rest, k => if k' = k then some v else assoc rest k

/-- Python `dict.get(k)`: the stored value, or `None` when absent. -/
def pyGet (r : Record) (k : String) : Val :=
  match assoc r k with
  | some v => v
  | none => Val.vnull

/-- `OuraDailyMetrics` (from `app/clients/oura.py`): three independently
optional records. -/
structure OuraDailyMetrics where
  readiness : Option Record
  sleep : Option Record
  activity : Option Record
deriving DecidableEq, Repr

/-- Python truthiness of an optional dict: `None` and `{}` are falsy. -/
def truthy : Option Record → Bool
  | none => false
  | some r => !r.isEmpty

/-- Truthiness of `any((metrics.readiness, metrics.sleep, metrics.activity))`
used by the fallback scan. -/
def truthyMetrics (m : OuraDailyMetrics) : Bool :=
  truthy m.readiness || truthy m.sleep || truthy m.activity

/-- Round a fraction to the nearest integer, ties to even: the semantics of
Python `round(x)` on an exactly represented value.  The fractional part
`qsub q (Q.ofInt (qfloor q))` is compared against one half. -/
def roundHalfEven (q : Q) : ℤ :=
  if qltb (qsub q (Q.ofInt (qfloor q))) ⟨1, 2⟩ then qfloor q
  else if qltb ⟨1, 2⟩ (qsub q (Q.ofInt (qfloor q))) then qfloor q + 1
  else if qfloor q % 2 = 0 then qfloor q else qfloor q + 1

/-- Python `round(x, 2)` on an exactly represented value. -/
def pyRound2 (q : Q) : Q := qdiv (Q.ofInt (roundHalfEven (qmul q (Q.ofInt 100)))) (Q.ofInt 100)

/-- Specification-level rounding to nearest integer on true rationals,
ties to even. -/
def roundHalfEvenRat (x : ℚ) : ℤ :=
  if x - ⌊x⌋ < 1/2 then ⌊x⌋
  else if 1/2 < x - ⌊x⌋ then ⌊x⌋ + 1
  else if ⌊x⌋ % 2 = 0 then ⌊x⌋ else ⌊x⌋ + 1

/-- Specification-level `round to 2 decimal places` on true rationals. -/
def round2Rat (x : ℚ) : ℚ := (roundHalfEvenRat (x * 100) : ℚ) / 100

theorem qfloor_toRat (q : Q) (hd : 0 < q.den) : qfloor q = ⌊q.toRat⌋ := by
  obtain ⟨n, d⟩ := q
  simp only [qfloor, Q.toRat] at *
  obtain ⟨m, rfl⟩ : ∃ m : ℕ, d = (m : ℤ) := ⟨d.toNat, (Int.toNat_of_nonneg hd.le).symm⟩
  rw [Int.fdiv_eq_ediv n (by exact_mod_cast hd.le)]
  exact_mod_cast (Rat.floor_intCast_div_natCast n m).symm

theorem qltb_toRat (a b : Q) (ha : 0 < a.den) (hb : 0 < b.den) :
    qltb a b = true ↔ a.toRat < b.toRat := by
  obtain ⟨an, ad⟩ := a
  obtain ⟨bn, bd⟩ := b
  simp only [qltb, Q.toRat, decide_eq_true_eq] at *
  rw [div_lt_div_iff₀ (by exact_mod_cast ha) (by exact_mod_cast hb)]
  constructor <;> intro h <;> exact_mod_cast h

theorem qmul_toRat (a b : Q) : (qmul a b).toRat = a.toRat * b.toRat := by
  obtain ⟨an, ad⟩ := a
  obtain ⟨bn, bd⟩ := b
  simp only [qmul, Q.toRat, Int.cast_mul]
  rw [div_mul_div_comm]

theorem qsub_toRat (a b : Q) (ha : a.den ≠ 0) (hb : b.den ≠ 0) :
    (qsub a b).toRat = a.toRat - b.toRat := by
  obtain ⟨an, ad⟩ := a
  obtain ⟨bn, bd⟩ := b
  simp only [qsub, Q.toRat] at *
  have had : (ad : ℚ) ≠ 0 := Int.cast_ne_zero.mpr ha
  have hbd : (bd : ℚ) ≠ 0 := Int.cast_ne_zero.mpr hb
  field_simp
  ring

theorem ofInt_toRat (n : ℤ) : (Q.ofInt n).toRat = (n : ℚ) := by
  simp [Q.ofInt, Q.toRat]

/-- The executable rounding agrees with specification-level rounding on
every fraction with positive denominator. -/
theorem roundHalfEven_toRat (q : Q) (hd : 0 < q.den) :
    roundHalfEven q = roundHalfEvenRat q.toRat := by
  have hfl : qfloor q = ⌊q.toRat⌋ := qfloor_toRat q hd
  have hrsub : (qsub q (Q.ofInt (qfloor q))).toRat = q.toRat - (⌊q.toRat⌋ : ℚ) := by
    rw [qsub_toRat q _ hd.ne' (by simp [Q.ofInt]), ofInt_toRat, hfl]
  have hden : 0 < (qsub q (Q.ofInt (qfloor q))).den := by
    simpa [qsub, Q.ofInt] using hd
  have hhalf : (⟨1, 2⟩ : Q).toRat = 1/2 := by norm_num [Q.toRat]
  have h₁ : qltb (qsub q (Q.ofInt (qfloor q))) ⟨1, 2⟩ = true ↔
      q.toRat - (⌊q.toRat⌋ : ℚ) < 1/2 := by
    rw [qltb_toRat _ _ hden (by norm_num), hrsub, hhalf]
  have h₂ : qltb ⟨1, 2⟩ (qsub q (Q.ofInt (qfloor q))) = true ↔
      1/2 < q.toRat - (⌊q.toRat⌋ : ℚ) := by
    rw [qltb_toRat _ _ (by norm_num) hden, hrsub, hhalf]
  rw [roundHalfEven, roundHalfEvenRat, hfl]
  rw [hfl] at h₁ h₂
  by_cases hA : q.toRat - (⌊q.toRat⌋ : ℚ) < 1/2
  · rw [if_pos (h₁.mpr hA), if_pos hA]
  · have b₁ : qltb (qsub q (Q.ofInt (⌊q.toRat⌋ : ℤ))) ⟨1, 2⟩ = false :=
      Bool.eq_false_iff.mpr fun h => hA (h₁.mp h)
    rw [b₁, if_neg Bool.false_ne_true, if_neg hA]
    by_cases hB : 1/2 < q.toRat - (⌊q.toRat⌋ : ℚ)
    · rw [if_pos (h₂.mpr hB), if_pos hB]
    · have b₂ : qltb ⟨1, 2⟩ (qsub q (Q.ofInt (⌊q.toRat⌋ : ℤ))) = false :=
        Bool.eq_false_iff.mpr fun h => hB (h₂.mp h)
      rw [b₂, if_neg Bool.false_ne_true, if_neg hB]

/-- The executable two-decimal rounding agrees with the specification-level
one on every fraction with positive denominator. -/
theorem pyRound2_toRat (q : Q) (hd : 0 < q.den) :
    (pyRound2 q).toRat = round2Rat q.toRat := by
  have hq100 : (qmul q (Q.ofInt 100)).toRat = q.toRat * 100 := by
    rw [qmul_toRat, ofInt_toRat]; norm_num
  have hden : 0 < (qmul q (Q.ofInt 100)).den := by
    simpa [qmul, Q.ofInt] using hd
  have hr : roundHalfEven (qmul q (Q.ofInt 100)) = roundHalfEvenRat (q.toRat * 100) := by
    rw [roundHalfEven_toRat _ hden, hq100]
  rw [pyRound2, round2Rat, hr]
  simp [qdiv, Q.ofInt, Q.toRat]

/-- `DailyMessageService._summarise_metrics`: derive the summary mapping,
in insertion order, exactly as the Python assignments do.  Note that
`summary["readiness_score"] = metrics.readiness.get("score")` runs whenever
the readiness record is truthy, storing `None` when the field is missing;
only `sleep_duration_hours` is guarded by an `is not None` check. -/
def summarise_metrics (m : OuraDailyMetrics) : List (String × Val) :=
  (match m.readiness with
   | some r => if r.isEmpty then [] else [("readiness_score", pyGet r "score")]
   | none => []) ++
  (match m.sleep with
   | some r =>
     if r.isEmpty then []
     else
       [("sleep_score", pyGet r "score")] ++
       (match pyGet r "total_sleep_duration" with
        | Val.vnum d => [("sleep_duration_hours", Val.vnum (pyRound2 (qdiv d (Q.ofInt 3600))))]
        | Val.vnull => [])
   | none => []) ++
  (match m.activity with
   | some r =>
     if r.isEmpty then []
     else [("activity_score", pyGet r "score"), ("steps", pyGet r "steps")]
   | none => [])

example :
    summarise_metrics ⟨some [("temperature", Val.vnum (Q.ofInt 1))], none, none⟩ =
      [("readiness_score", Val.vnull)] := by decide

example :
    summarise_metrics
        ⟨none, some [("score", Val.vnum (Q.ofInt 70)),
                     ("total_sleep_duration", Val.vnum (Q.ofInt 27000))], none⟩ =
      [("sleep_score", Val.vnum (Q.ofInt 70)),
       ("sleep_duration_hours", Val.vnum ⟨750, 100⟩)] := by decide

/-- Render a value the way a Python f-string does: `None` for null, the
plain integer for whole numbers.  (Non-integral fractions never reach an
f-string in the claims; their rendering is abstracted as `num/den`.) -/
def valStr : Val → String
  | Val.vnull => "None"
  | Val.vnum q => if q.den = 1 then toString q.num else toString q.num ++ "/" ++ toString q.den

/-- `DailyMessageService._build_fallback_message`: deterministic copy used
when the Text Generator returns an empty message. -/
def build_fallback_message (summary : List (String × Val)) : String :=
  let readiness := pyGet summary "readiness_score"
  let sleep := pyGet summary "sleep_score"
  let paragraphs := ["Here\x27s a gentle check-in based on your latest Oura data."]
  let paragraphs := if readiness ≠ Val.vnull
    then paragraphs ++ ["Readiness score: " ++ valStr readiness ++ "."] else paragraphs
  let paragraphs := if sleep ≠ Val.vnull
    then paragraphs ++ ["Sleep score: " ++ valStr sleep ++ "."] else paragraphs
  let paragraphs := if paragraphs.length = 1
    then paragraphs ++ ["Keep looking after yourself today."]
    else paragraphs ++ ["Keep listening to your body and make thoughtful adjustments as needed."]
  let body := String.join (paragraphs.map (fun p => "<p>" ++ p ++ "</p>"))
  body ++ "<ul><li>Take one simple action that respects how you feel right now.</li></ul>"

/-- Count the occurrences of a (non-empty) pattern in a character list,
one per starting position. -/
def countSub (pat : List Char) : List Char → ℕ
  | [] => 0
  | c :: rest => (if pat.isPrefixOf (c :: rest) then 1 else 0) + countSub pat rest

/-- Substring occurrence test on character lists. -/
def containsSub (pat : List Char) : List Char → Bool
  | [] => pat.isEmpty
  | c :: rest => pat.isPrefixOf (c :: rest) || containsSub pat rest

set_option maxRecDepth 4000 in
example :
    countSub "<li>".data (build_fallback_message
      [("readiness_score", Val.vnum (Q.ofInt 80)), ("sleep_score", Val.vnum (Q.ofInt 70))]).data = 1 := by
  decide

/-- JSON-ish document, used to model the structured payload passed to
`json.dumps(..., indent=2, sort_keys=True)` in `_build_prompt`. -/
inductive J where
  | null : J
  | num (q : Q) : J
  | str (s : String) : J
  | obj (fields : List (String × J)) : J

/-- Sort the fields of an object by key, as `sort_keys=True` does. -/
def sortPairs (l : List (String × J)) : List (String × J) :=
  List.insertionSort (fun a b : String × J => a.1 ≤ b.1) l

mutual
/-- Canonical form of a document under `sort_keys=True` serialization: every
object's fields sorted by key, recursively.  Two documents denote the same
serialized string exactly when their canonical forms are equal. -/
def canon : J → J
  | J.null => J.null
  | J.num q => J.num q
  | J.str s => J.str s
  | J.obj l => J.obj (sortPairs (canonFields l))

/-- Canonicalise each value of an object's field list. -/
def canonFields : List (String × J) → List (String × J)
  | [] => []
  | (k, v) :: rest => (k, canon v) :: canonFields rest
end

/-- Content of a prompt block: either a literal text blob or the
`sort_keys=True` JSON serialization of a document (kept as the canonical
document rather than as a rendered string). -/
inductive Content where
  | text (s : String) : Content
  | jsonText (j : J) : Content

/-- A role-tagged prompt block (`{"role": ..., "content": ...}`). -/
structure Msg where
  role : String
  content : Content

/-- Embed a field value into a JSON document. -/
def jOfVal : Val → J
  | Val.vnull => J.null
  | Val.vnum q => J.num q

/-- Embed an optional record into a JSON document (`None` becomes null). -/
def jOfRecord : Option Record → J
  | none => J.null
  | some r => J.obj (r.map (fun p => (p.1, jOfVal p.2)))

/-- `DailyMessageService._build_prompt`: the fixed system directive followed
by the user block carrying the serialized structured payload. -/
def build_prompt (metrics : OuraDailyMetrics) (summary : List (String × Val))
    (target_date : ℤ) : List Msg :=
  let readiness_score := pyGet summary "readiness_score"
  let sleep_score := pyGet summary "sleep_score"
  let context_blob :=
    "You are a daily motivator coach. Use the Oura readiness and sleep scores to craft a helpful, kind plan for the day. Keep a warm tone, avoid medical claims or PII, and focus on actionable guidance. Respond with HTML markup: provide two or three <p> paragraphs followed by a <ul> containing one or two specific focus items." ++
    " Readiness score: " ++ valStr readiness_score ++ " out of 100. Sleep score: " ++
    valStr sleep_score ++ " out of 100."
  let structured_payload : J := J.obj
    [("date", J.str (toString target_date)),
     ("summary", J.obj (summary.map (fun p => (p.1, jOfVal p.2)))),
     ("raw_metrics", J.obj
       [("readiness", jOfRecord metrics.readiness),
        ("sleep", jOfRecord metrics.sleep),
        ("activity", jOfRecord metrics.activity)])]
  [⟨"system", Content.text context_blob⟩,
   ⟨"user", Content.jsonText (canon structured_payload)⟩]

/-- Errors `build_daily_message` can raise: an exception propagated from the
Metrics Source (`transport`, tagged by an opaque identity), the
`ValueError("No Oura data available ...")` raised after an exhausted scan
(`noData`), an exception propagated from the Text Generator
(`generation`), and the `ValueError` that `ZoneInfo` raises on a
malformed key, which the `except ZoneInfoNotFoundError` clause in
`_get_timezone` does not catch (`badTzKey`). -/
inductive PyErr where
  | transport (e : ℕ) : PyErr
  | noData : PyErr
  | generation (e : ℕ) : PyErr
  | badTzKey : PyErr
deriving DecidableEq, Repr

/-- The loop body of `_fetch_metrics_with_fallback`, proceeding through the
remaining offsets with the currently remembered `last_error`.  The second
component counts calls made to the Metrics Source.  A fetch failure is
remembered and the scan continues; a successful fetch returns immediately
when any of the three records is truthy, and otherwise continues with the
remembered error unchanged. -/
def scan (fetch : ℤ → Except ℕ OuraDailyMetrics) (target : ℤ) :
    List ℕ → Option ℕ → Except PyErr (OuraDailyMetrics × ℤ) × ℕ
  | [], some e => (Except.error (PyErr.transport e), 0)
  | [], none => (Except.error PyErr.noData, 0)
  | o :: rest, last_error =>
    match fetch (target - (o : ℤ)) with
    | Except.error e =>
      let r := scan fetch target rest (some e)
      (r.1, r.2 + 1)
    | Except.ok m =>
      if truthyMetrics m then (Except.ok (m, target - (o : ℤ)), 1)
      else
        let r := scan fetch target rest last_error
        (r.1, r.2 + 1)

/-- `DailyMessageService._fetch_metrics_with_fallback`: scan offsets
`0 .. max 0 fallback_days` inclusive. -/
def fetch_metrics_with_fallback (fetch : ℤ → Except ℕ OuraDailyMetrics)
    (fallback_days : ℤ) (target : ℤ) : Except PyErr (OuraDailyMetrics × ℤ) × ℕ :=
  scan fetch target (List.range ((max 0 fallback_days).toNat + 1)) none

/-- Offset `o` yields usable data: the fetch succeeds and at least one of
the three records is non-empty. -/
def goodAt (fetch : ℤ → Except ℕ OuraDailyMetrics) (target : ℤ) (o : ℕ) : Bool :=
  match fetch (target - (o : ℤ)) with
  | Except.ok m => truthyMetrics m
  | Except.error _ => false

/-- A resolved timezone: either a zoneinfo entry or the `timezone.utc`
fallback object. -/
inductive TZ where
  | zone (key : String) : TZ
  | utc : TZ
deriving DecidableEq, Repr

/-- Python `str.strip()`: drop leading and trailing whitespace. -/
def pyStrip (s : String) : String :=
  ⟨((s.data.dropWhile Char.isWhitespace).reverse.dropWhile Char.isWhitespace).reverse⟩

/-- The key normalisation `(tz_alias or self.config.app_timezone or
"UTC").strip() or "UTC"` (Python `or` chains on string truthiness). -/
def normalizeTzKey (app_timezone : String) (tz_alias : Option String) : String :=
  let raw :=
    match tz_alias with
    | some s => if s = "" then (if app_timezone = "" then "UTC" else app_timezone) else s
    | none => if app_timezone = "" then "UTC" else app_timezone
  let stripped := pyStrip raw
  if stripped = "" then "UTC" else stripped

/-- Outcome of `ZoneInfo(key)` for a given key: the zone resolves, the
lookup raises `ZoneInfoNotFoundError`, or the key is malformed (an
absolute path, or a path escaping the search directories) and `ZoneInfo`
raises `ValueError` instead. -/
inductive ZoneLookup where
  | found : ZoneLookup
  | notFound : ZoneLookup
  | invalid : ZoneLookup
deriving DecidableEq, Repr

/-- `DailyMessageService._get_timezone`.  `zoneDB` models the zoneinfo
collaborator per key (`ZoneLookup`).  The source catches only
`ZoneInfoNotFoundError`, so a `found` key resolves with no warning, a
`notFound` key falls back to UTC with cache key "UTC" after the
`logger.warning("No time zone found ...")` (the Bool component records that
log), and an `invalid` key lets `ZoneInfo`'s `ValueError` propagate
(`Except.error`). -/
def get_timezone (zoneDB : String → ZoneLookup) (app_timezone : String)
    (tz_alias : Option String) : Except Unit (TZ × String × Bool) :=
  let tz_key := normalizeTzKey app_timezone tz_alias
  match zoneDB tz_key with
  | ZoneLookup.found => Except.ok (TZ.zone tz_key, tz_key, false)
  | ZoneLookup.notFound => Except.ok (TZ.utc, "UTC", true)
  | ZoneLookup.invalid => Except.error ()

/-- The configuration values the service reads from `Settings`. -/
structure Config where
  app_timezone : String
  cache_ttl_minutes : ℤ
  data_fallback_days : ℤ
deriving DecidableEq, Repr

/-- The payload dict assembled by `build_daily_message` (dates abstracted
to day numbers in place of their ISO strings). -/
structure Payload where
  requested_date_iso : ℤ
  date_iso : ℤ
  message : String
  summary : List (String × Val)
  metrics : OuraDailyMetrics
  timezone : String
  timezone_source : String
deriving DecidableEq, Repr

/-- `CachedMessage`: a payload with its creation instant. -/
structure CachedMessage where
  payload : Payload
  created_at : ℤ
deriving DecidableEq, Repr

/-- The `_cache` dict, keyed by `(tz_key, date)`.  Assignment prepends, and
lookup takes the first match, so the list behaves as the Python dict
(later writes shadow earlier ones). -/
abbrev Cache := List ((String × ℤ) × CachedMessage)

/-- Dict lookup `self._cache.get(cache_key)`. -/
def cacheGet : Cache → String × ℤ → Option CachedMessage
  | [], _ => none
  | (k', e) :: rest, k => if k' = k then some e else cacheGet rest k

/-- The external collaborators and the clock, as oracles.  `fetch` and
`generate` return either a result or an opaque exception identity;
`nowTime`/`nowDate` are `datetime.now(tz)` and `datetime.now(tz).date()`
during this call. -/
structure Env where
  zoneDB : String → ZoneLookup
  fetch : ℤ → Except ℕ OuraDailyMetrics
  generate : List Msg → Except ℕ String
  nowTime : ℤ
  nowDate : ℤ

/-- `DailyMessageService._is_expired`:
`datetime.now(tz) >= created_at + timedelta(minutes=ttl)`. -/
def is_expired (cfg : Config) (nowTime created_at : ℤ) : Bool :=
  created_at + cfg.cache_ttl_minutes ≤ nowTime

/-- Python truthiness of the optional `tz_alias` argument. -/
def optTruthy : Option String → Bool
  | none => false
  | some s => s ≠ ""

/-- The body of `build_daily_message` from the fallback fetch onward (the
path taken on a cache miss or a stale entry).  Returns the result, the
updated cache, and the numbers of Metrics Source and Text Generator calls
made. -/
def build_fresh (cfg : Config) (env : Env) (cache : Cache)
    (tz_alias : Option String) (tz_key : String) (target : ℤ) :
    Except PyErr Payload × Cache × ℕ × ℕ :=
  match fetch_metrics_with_fallback env.fetch cfg.data_fallback_days target with
  | (Except.error e, n) => (Except.error e, cache, n, 0)
  | (Except.ok (metrics, resolved_date), n) =>
    let summary := summarise_metrics metrics
    let messages := build_prompt metrics summary resolved_date
    match env.generate messages with
    | Except.error ge => (Except.error (PyErr.generation ge), cache, n, 1)
    | Except.ok raw_text =>
      let message_text := if raw_text = "" then build_fallback_message summary else raw_text
      let payload : Payload :=
        { requested_date_iso := target
          date_iso := resolved_date
          message := message_text
          summary := summary
          metrics := metrics
          timezone := tz_key
          timezone_source := if optTruthy tz_alias then "client" else "config" }
      let resolved_cache_key := (tz_key, resolved_date)
      let cache₁ : Cache := (resolved_cache_key, ⟨payload, env.nowTime⟩) :: cache
      let request_cache_key := (tz_key, target)
      let cache₂ : Cache :=
        if request_cache_key ≠ resolved_cache_key
        then (request_cache_key, (⟨payload, env.nowTime⟩ : CachedMessage)) :: cache₁
        else cache₁
      (Except.ok payload, cache₂, n, 1)

/-- `DailyMessageService.build_daily_message`: resolve the timezone
(propagating `ZoneInfo`'s uncaught `ValueError` on a malformed key), apply
the explicit target date or the logical today, return a live cache entry
untouched, and otherwise rebuild via `build_fresh`. -/
def build_daily_message (cfg : Config) (env : Env) (cache : Cache)
    (target_date : Option ℤ) (tz_alias : Option String) :
    Except PyErr Payload × Cache × ℕ × ℕ :=
  match get_timezone env.zoneDB cfg.app_timezone tz_alias with
  | Except.error _ => (Except.error PyErr.badTzKey, cache, 0, 0)
  | Except.ok tzr =>
    let tz_key := tzr.2.1
    let today := env.nowDate
    let target := target_date.getD today
    let cache_key := (tz_key, target)
    match cacheGet cache cache_key with
    | some cached =>
      if is_expired cfg env.nowTime cached.created_at
      then build_fresh cfg env cache tz_alias tz_key target
      else (Except.ok cached.payload, cache, 0, 0)
    | none => build_fresh cfg env cache tz_alias tz_key target

theorem cacheGet_head (k : String × ℤ) (e : CachedMessage) (c : Cache) :
    cacheGet ((k, e) :: c) k = some e := by
  simp [cacheGet]

theorem cacheGet_ne (k k' : String × ℤ) (e : CachedMessage) (c : Cache)
    (h : k' ≠ k) : cacheGet ((k', e) :: c) k = cacheGet c k := by
  simp [cacheGet, h]


theorem scan_cons_error (fetch : ℤ → Except ℕ OuraDailyMetrics) (target : ℤ)
    (o : ℕ) (rest : List ℕ) (le : Option ℕ) (e : ℕ)
    (hf : fetch (target - (o : ℤ)) = Except.error e) :
    scan fetch target (o :: rest) le =
      ((scan fetch target rest (some e)).1, (scan fetch target rest (some e)).2 + 1) := by
  rw [scan, hf]

theorem scan_cons_good (fetch : ℤ → Except ℕ OuraDailyMetrics) (target : ℤ)
    (o : ℕ) (rest : List ℕ) (le : Option ℕ) (m : OuraDailyMetrics)
    (hf : fetch (target - (o : ℤ)) = Except.ok m) (ht : truthyMetrics m = true) :
    scan fetch target (o :: rest) le = (Except.ok (m, target - (o : ℤ)), 1) := by
  rw [scan, hf]
  simp [ht]

theorem scan_cons_empty (fetch : ℤ → Except ℕ OuraDailyMetrics) (target : ℤ)
    (o : ℕ) (rest : List ℕ) (le : Option ℕ) (m : OuraDailyMetrics)
    (hf : fetch (target - (o : ℤ)) = Except.ok m) (ht : truthyMetrics m = false) :
    scan fetch target (o :: rest) le =
      ((scan fetch target rest le).1, (scan fetch target rest le).2 + 1) := by
  rw [scan, hf]
  simp [ht]

/-- The error remembered by the loop after processing a list of offsets. -/
def scanLast (fetch : ℤ → Except ℕ OuraDailyMetrics) (target : ℤ) :
    List ℕ → Option ℕ → Option ℕ
  | [], le => le
  | o :: rest, le =>
    match fetch (target - (o : ℤ)) with
    | Except.error e => scanLast fetch target rest (some e)
    | Except.ok _ => scanLast fetch target rest le

theorem scanLast_cons_error (fetch : ℤ → Except ℕ OuraDailyMetrics) (target : ℤ)
    (o : ℕ) (rest : List ℕ) (le : Option ℕ) (e : ℕ)
    (hf : fetch (target - (o : ℤ)) = Except.error e) :
    scanLast fetch target (o :: rest) le = scanLast fetch target rest (some e) := by
  rw [scanLast, hf]

theorem scanLast_cons_ok (fetch : ℤ → Except ℕ OuraDailyMetrics) (target : ℤ)
    (o : ℕ) (rest : List ℕ) (le : Option ℕ) (m : OuraDailyMetrics)
    (hf : fetch (target - (o : ℤ)) = Except.ok m) :
    scanLast fetch target (o :: rest) le = scanLast fetch target rest le := by
  rw [scanLast, hf]

/-- If offset `o₀` is the first good offset in the window `[a, a+len)`, the
scan returns its data and resolved date, after `o₀ - a + 1` fetches. -/
theorem scan_first_good (fetch : ℤ → Except ℕ OuraDailyMetrics) (target : ℤ)
    (o₀ : ℕ) (m : OuraDailyMetrics)
    (hfetch : fetch (target - (o₀ : ℤ)) = Except.ok m)
    (htr : truthyMetrics m = true) :
    ∀ (len a : ℕ) (le : Option ℕ), a ≤ o₀ → o₀ < a + len →
      (∀ o, a ≤ o → o < o₀ → goodAt fetch target o = false) →
      scan fetch target (List.range' a len) le =
        (Except.ok (m, target - (o₀ : ℤ)), o₀ - a + 1) := by
  intro len
  induction len with
  | zero => intro a le ha hlt; omega
  | succ len ih =>
    intro a le ha hlt hbad
    rw [List.range'_succ]
    rcases Nat.eq_or_lt_of_le ha with rfl | hlt'
    · rw [scan_cons_good fetch target a _ le m hfetch htr, Nat.sub_self]
    · have hg := hbad a le_rfl hlt'
      cases hf : fetch (target - (a : ℤ)) with
      | error e =>
        rw [scan_cons_error fetch target a _ le e hf,
          ih (a + 1) (some e) hlt' (by omega) (fun o h₁ h₂ => hbad o (by omega) h₂)]
        exact Prod.ext rfl (by omega)
      | ok m' =>
        have htr' : truthyMetrics m' = false := by
          unfold goodAt at hg
          rw [hf] at hg
          exact hg
        rw [scan_cons_empty fetch target a _ le m' hf htr',
          ih (a + 1) le hlt' (by omega) (fun o h₁ h₂ => hbad o (by omega) h₂)]
        exact Prod.ext rfl (by omega)

/-- When no offset in the list is good, the scan exhausts the list and
fails with the remembered error if any, else with the no-data error. -/
theorem scan_all_bad (fetch : ℤ → Except ℕ OuraDailyMetrics) (target : ℤ) :
    ∀ (offs : List ℕ) (le : Option ℕ),
      (∀ o ∈ offs, goodAt fetch target o = false) →
      scan fetch target offs le =
        ((match scanLast fetch target offs le with
          | some e => Except.error (PyErr.transport e)
          | none => Except.error PyErr.noData), offs.length) := by
  intro offs
  induction offs with
  | nil =>
    intro le _
    cases le <;> rfl
  | cons o rest ih =>
    intro le hbad
    have hg := hbad o (List.mem_cons_self o rest)
    cases hf : fetch (target - (o : ℤ)) with
    | error e =>
      rw [scan_cons_error fetch target o rest le e hf,
        scanLast_cons_error fetch target o rest le e hf,
        ih (some e) (fun o' ho' => hbad o' (List.mem_cons_of_mem o ho'))]
      rfl
    | ok m' =>
      have htr' : truthyMetrics m' = false := by
        unfold goodAt at hg
        rw [hf] at hg
        exact hg
      rw [scan_cons_empty fetch target o rest le m' hf htr',
        scanLast_cons_ok fetch target o rest le m' hf,
        ih le (fun o' ho' => hbad o' (List.mem_cons_of_mem o ho'))]
      rfl

/-- If every fetch in the list succeeds, the remembered error is unchanged. -/
theorem scanLast_all_ok (fetch : ℤ → Except ℕ OuraDailyMetrics) (target : ℤ) :
    ∀ (offs : List ℕ) (le : Option ℕ),
      (∀ o ∈ offs, ∀ e, fetch (target - (o : ℤ)) ≠ Except.error e) →
      scanLast fetch target offs le = le := by
  intro offs
  induction offs with
  | nil => intro le _; rfl
  | cons o rest ih =>
    intro le hok
    cases hf : fetch (target - (o : ℤ)) with
    | error e => exact absurd hf (hok o (List.mem_cons_self o rest) e)
    | ok m' =>
      rw [scanLast_cons_ok fetch target o rest le m' hf]
      exact ih le (fun o' ho' => hok o' (List.mem_cons_of_mem o ho'))

/-- If offset `oₑ` in the window `[a, a+len)` fetches an error and every
later offset in the window fetches successfully, the error remembered after
the window is `oₑ`'s. -/
theorem scanLast_last_error (fetch : ℤ → Except ℕ OuraDailyMetrics) (target : ℤ)
    (oe : ℕ) (e : ℕ) (herr : fetch (target - (oe : ℤ)) = Except.error e) :
    ∀ (len a : ℕ) (le : Option ℕ), a ≤ oe → oe < a + len →
      (∀ o, oe < o → o < a + len → ∀ e', fetch (target - (o : ℤ)) ≠ Except.error e') →
      scanLast fetch target (List.range' a len) le = some e := by
  intro len
  induction len with
  | zero => intro a le ha hlt; omega
  | succ len ih =>
    intro a le ha hlt hok
    rw [List.range'_succ]
    rcases Nat.eq_or_lt_of_le ha with rfl | hlt'
    · rw [scanLast_cons_error fetch target a _ le e herr]
      exact scanLast_all_ok fetch target _ (some e)
        (fun o ho e' => hok o
          (by have := List.mem_range'_1.mp ho; omega)
          (by have := List.mem_range'_1.mp ho; omega) e')
    · cases hf : fetch (target - (a : ℤ)) with
      | error e' =>
        rw [scanLast_cons_error fetch target a _ le e' hf]
        exact ih (a + 1) (some e') hlt' (by omega) (fun o h₁ h₂ => hok o h₁ (by omega))
      | ok m' =>
        rw [scanLast_cons_ok fetch target a _ le m' hf]
        exact ih (a + 1) le hlt' (by omega) (fun o h₁ h₂ => hok o h₁ (by omega))

/-- A successful rebuild makes exactly one generation call, returns a
payload recording the requested date and timezone key, and stores the fresh
entry under the resolved-date key and, when the dates differ, also under
the requested-date key (newest first). -/
theorem build_fresh_ok (cfg : Config) (env : Env) (cache : Cache)
    (tz_alias : Option String) (tz_key : String) (target : ℤ)
    (p : Payload) (c' : Cache) (f g : ℕ)
    (h : build_fresh cfg env cache tz_alias tz_key target = (Except.ok p, c', f, g)) :
    p.requested_date_iso = target ∧ p.timezone = tz_key ∧ g = 1 ∧
    c' = if target = p.date_iso
      then ((tz_key, p.date_iso), (⟨p, env.nowTime⟩ : CachedMessage)) :: cache
      else ((tz_key, target), (⟨p, env.nowTime⟩ : CachedMessage)) ::
           ((tz_key, p.date_iso), (⟨p, env.nowTime⟩ : CachedMessage)) :: cache := by
  unfold build_fresh at h
  rcases hfw : fetch_metrics_with_fallback env.fetch cfg.data_fallback_days target with ⟨res, n⟩
  rw [hfw] at h
  cases res with
  | error e => simp at h
  | ok pr =>
    obtain ⟨metrics, resolved⟩ := pr
    dsimp only at h
    cases hge : env.generate (build_prompt metrics (summarise_metrics metrics) resolved) with
    | error ge =>
      rw [hge] at h
      simp at h
    | ok raw_text =>
      rw [hge] at h
      dsimp only at h
      obtain ⟨hp, hrest⟩ := Prod.mk.inj h
      obtain ⟨hc, hrest₂⟩ := Prod.mk.inj hrest
      obtain ⟨hn, hg1⟩ := Prod.mk.inj hrest₂
      have hp' := Except.ok.inj hp
      subst hp'
      refine ⟨rfl, rfl, hg1.symm, ?_⟩
      rw [← hc]
      by_cases hd : target = resolved
      · subst hd
        rw [if_pos rfl, if_neg (by simp)]
      · rw [if_neg hd, if_pos (by simp [Ne, Prod.ext_iff, hd])]

/-- A failed rebuild leaves the cache exactly as it was. -/
theorem build_fresh_error (cfg : Config) (env : Env) (cache : Cache)
    (tz_alias : Option String) (tz_key : String) (target : ℤ)
    (e : PyErr) (c' : Cache) (f g : ℕ)
    (h : build_fresh cfg env cache tz_alias tz_key target = (Except.error e, c', f, g)) :
    c' = cache := by
  unfold build_fresh at h
  rcases hfw : fetch_metrics_with_fallback env.fetch cfg.data_fallback_days target with ⟨res, n⟩
  rw [hfw] at h
  cases res with
  | error e' =>
    rw [Prod.mk.injEq, Prod.mk.injEq, Prod.mk.injEq] at h
    exact h.2.1.symm
  | ok pr =>
    obtain ⟨metrics, resolved⟩ := pr
    dsimp only at h
    cases hge : env.generate (build_prompt metrics (summarise_metrics metrics) resolved) with
    | error ge =>
      rw [hge] at h
      rw [Prod.mk.injEq, Prod.mk.injEq, Prod.mk.injEq] at h
      exact h.2.1.symm
    | ok raw_text =>
      rw [hge] at h
      dsimp only at h
      simp at h

/-- A call that returned a successful payload resolved its timezone
without the uncaught `ValueError`. -/
theorem build_ok_tz (cfg : Config) (env : Env) (cache : Cache)
    (target_date : Option ℤ) (tz_alias : Option String)
    (p : Payload) (c' : Cache) (f g : ℕ)
    (h : build_daily_message cfg env cache target_date tz_alias = (Except.ok p, c', f, g)) :
    ∃ tzr, get_timezone env.zoneDB cfg.app_timezone tz_alias = Except.ok tzr := by
  unfold build_daily_message at h
  cases htz : get_timezone env.zoneDB cfg.app_timezone tz_alias with
  | error u =>
    rw [htz] at h
    dsimp only at h
    obtain ⟨hbad, _⟩ := Prod.mk.inj h
    exact absurd hbad (by simp)
  | ok tzr => exact ⟨tzr, rfl⟩

/-- A successful call that performed at least one Metrics Source call is
exactly a successful rebuild: the cached-entry fast path performs none. -/
theorem build_ok_of_miss (cfg : Config) (env : Env) (cache : Cache)
    (target_date : Option ℤ) (tz_alias : Option String)
    (p : Payload) (c' : Cache) (f g : ℕ) (tzr : TZ × String × Bool)
    (htz : get_timezone env.zoneDB cfg.app_timezone tz_alias = Except.ok tzr)
    (h : build_daily_message cfg env cache target_date tz_alias = (Except.ok p, c', f, g))
    (hf : 0 < f) :
    build_fresh cfg env cache tz_alias tzr.2.1 (target_date.getD env.nowDate) =
      (Except.ok p, c', f, g) := by
  unfold build_daily_message at h
  rw [htz] at h
  dsimp only at h
  cases hc : cacheGet cache (tzr.2.1, target_date.getD env.nowDate) with
  | none =>
    rw [hc] at h
    exact h
  | some cached =>
    rw [hc] at h
    dsimp only at h
    by_cases hex : is_expired cfg env.nowTime cached.created_at = true
    · rw [if_pos hex] at h
      exact h
    · rw [if_neg hex] at h
      rw [Prod.mk.injEq, Prod.mk.injEq, Prod.mk.injEq] at h
      omega

instance {e a : Type} [DecidableEq e] [DecidableEq a] : DecidableEq (Except e a)
  | Except.ok x, Except.ok y => if h : x = y then isTrue (by rw [h]) else isFalse (by simp [h])
  | Except.ok x, Except.error y => isFalse (by simp)
  | Except.error x, Except.ok y => isFalse (by simp)
  | Except.error x, Except.error y => if h : x = y then isTrue (by rw [h]) else isFalse (by simp [h])

/-- Fixture: a metrics response whose readiness record carries a score. -/
def mGood : OuraDailyMetrics := ⟨some [("score", Val.vnum (Q.ofInt 80))], none, none⟩

/-- Fixture: an empty-but-successful metrics response. -/
def mEmpty : OuraDailyMetrics := ⟨none, none, none⟩

/-- Fixture: a zoneinfo database resolving only the key UTC, with every
other key well-formed but unknown. -/
def zdbUTC : String → ZoneLookup :=
  fun s => if s = "UTC" then ZoneLookup.found else ZoneLookup.notFound

/-- Fixture configuration: UTC default, 15-minute TTL, 1 fallback day. -/
def cfgW : Config := ⟨"UTC", 15, 1⟩

/-- Fixture environment whose fetch always succeeds with data at time 0. -/
def envW1 : Env := ⟨zdbUTC, fun _ => Except.ok mGood, fun _ => Except.ok "coach text", 0, 0⟩

/-- The payload the fixture build produces. -/
def pW : Payload :=
  { requested_date_iso := 0, date_iso := 0, message := "coach text",
    summary := [("readiness_score", Val.vnum (Q.ofInt 80))], metrics := mGood,
    timezone := "UTC", timezone_source := "config" }

/-- The cache after the fixture build. -/
def c1W : Cache := [(("UTC", 0), ⟨pW, 0⟩)]

/-- Fixture environment for a second call ten minutes later whose oracles
would fail if consulted. -/
def envW2 : Env := ⟨zdbUTC, fun _ => Except.error 99, fun _ => Except.error 98, 10, 0⟩

/-- Fixture environment whose fetch always raises exception 7. -/
def envErr : Env := ⟨zdbUTC, fun _ => Except.error 7, fun _ => Except.ok "coach text", 0, 0⟩

/-- C1: cache hit freshness.  If a build for `(tz_alias, d)` succeeded after
actually fetching (a rebuild, `0 < f`) at time `env₁.nowTime`, then a second
call with the same date and alias before the TTL elapses returns exactly the
payload stored by that build, leaves the cache untouched, and performs zero
Metrics Source calls and zero Text Generator calls. -/
theorem claim_C1_cache_hit_freshness (cfg : Config) (env₁ env₂ : Env) (cache : Cache)
    (d : ℤ) (tz_alias : Option String) (p : Payload) (c₁ : Cache) (f g : ℕ)
    (hdb : env₂.zoneDB = env₁.zoneDB)
    (h₁ : build_daily_message cfg env₁ cache (some d) tz_alias = (Except.ok p, c₁, f, g))
    (hmiss : 0 < f)
    (hfresh : env₂.nowTime < env₁.nowTime + cfg.cache_ttl_minutes) :
    build_daily_message cfg env₂ c₁ (some d) tz_alias = (Except.ok p, c₁, 0, 0) := by
  obtain ⟨tzr, htz⟩ := build_ok_tz cfg env₁ cache (some d) tz_alias p c₁ f g h₁
  have hb := build_ok_of_miss cfg env₁ cache (some d) tz_alias p c₁ f g tzr htz h₁ hmiss
  simp only [Option.getD_some] at hb
  obtain ⟨hreq, htzk, hg, hcache⟩ := build_fresh_ok cfg env₁ cache tz_alias _ d p c₁ f g hb
  have hget : cacheGet c₁ (tzr.2.1, d) = some ⟨p, env₁.nowTime⟩ := by
    rw [hcache]
    by_cases hd : d = p.date_iso
    · rw [if_pos hd, hd]
      exact cacheGet_head _ _ _
    · rw [if_neg hd]
      exact cacheGet_head _ _ _
  have hexp : is_expired cfg env₂.nowTime env₁.nowTime = false := by
    unfold is_expired
    simp only [decide_eq_false_iff_not]
    omega
  unfold build_daily_message
  rw [hdb, htz]
  dsimp only
  simp only [Option.getD_some]
  rw [hget]
  dsimp only
  rw [if_neg (by rw [hexp]; exact Bool.false_ne_true)]

set_option maxRecDepth 10000 in
theorem claim_C1_witness :
    build_daily_message cfgW envW2 c1W (some 0) none = (Except.ok pW, c1W, 0, 0) :=
  claim_C1_cache_hit_freshness cfgW envW1 envW2 [] 0 none pW c1W 1 1 rfl
    (by decide) (by decide) (by decide)

/-- C4: dual-key store.  Every successful rebuild leaves the produced
payload in the cache as a fresh entry (stamped with the call's `now`) under
the resolved-date key and under the requested-date key of the resolved
timezone, so that it is reachable by either key; the payload records the
requested date and the resolved timezone key. -/
theorem claim_C4_dual_key_store (cfg : Config) (env : Env) (cache : Cache)
    (d : ℤ) (tz_alias : Option String) (p : Payload) (c' : Cache) (f g : ℕ)
    (tzr : TZ × String × Bool)
    (htz : get_timezone env.zoneDB cfg.app_timezone tz_alias = Except.ok tzr)
    (h : build_daily_message cfg env cache (some d) tz_alias = (Except.ok p, c', f, g))
    (hmiss : 0 < f) :
    p.requested_date_iso = d ∧ p.timezone = tzr.2.1 ∧
    cacheGet c' (tzr.2.1, p.date_iso) = some ⟨p, env.nowTime⟩ ∧
    cacheGet c' (tzr.2.1, d) = some ⟨p, env.nowTime⟩ := by
  have hb := build_ok_of_miss cfg env cache (some d) tz_alias p c' f g tzr htz h hmiss
  simp only [Option.getD_some] at hb
  obtain ⟨hreq, htzk, hg, hcache⟩ := build_fresh_ok cfg env cache tz_alias _ d p c' f g hb
  refine ⟨hreq, htzk, ?_, ?_⟩
  · rw [hcache]
    by_cases hd : d = p.date_iso
    · rw [if_pos hd]
      exact cacheGet_head _ _ _
    · rw [if_neg hd]
      rw [cacheGet_ne _ _ _ _ (fun hcon => hd (congrArg Prod.snd hcon))]
      exact cacheGet_head _ _ _
  · rw [hcache]
    by_cases hd : d = p.date_iso
    · rw [if_pos hd, hd]
      exact cacheGet_head _ _ _
    · rw [if_neg hd]
      exact cacheGet_head _ _ _

set_option maxRecDepth 10000 in
theorem claim_C4_witness :
    pW.requested_date_iso = 0 ∧ pW.timezone = "UTC" ∧
    cacheGet c1W ("UTC", pW.date_iso) = some ⟨pW, envW1.nowTime⟩ ∧
    cacheGet c1W ("UTC", 0) = some ⟨pW, envW1.nowTime⟩ :=
  claim_C4_dual_key_store cfgW envW1 [] 0 none pW c1W 1 1
    (TZ.zone "UTC", "UTC", false) (by decide) (by decide) (by decide)

/-- C10: cache atomicity on failure.  Whenever `build_daily_message` raises
(a propagated transport error, the no-data error, a Text Generator failure,
or the uncaught timezone `ValueError`), the cache mapping is returned
exactly as it was: writes happen only after both the fetch and the
generation succeeded. -/
theorem claim_C10_error_cache_atomicity (cfg : Config) (env : Env) (cache : Cache)
    (target_date : Option ℤ) (tz_alias : Option String)
    (e : PyErr) (c' : Cache) (f g : ℕ)
    (h : build_daily_message cfg env cache target_date tz_alias = (Except.error e, c', f, g)) :
    c' = cache := by
  unfold build_daily_message at h
  cases htz : get_timezone env.zoneDB cfg.app_timezone tz_alias with
  | error u =>
    rw [htz] at h
    dsimp only at h
    obtain ⟨_, hrest⟩ := Prod.mk.inj h
    exact (Prod.mk.inj hrest).1.symm
  | ok tzr =>
    rw [htz] at h
    dsimp only at h
    cases hc : cacheGet cache (tzr.2.1, target_date.getD env.nowDate) with
    | none =>
      rw [hc] at h
      exact build_fresh_error cfg env cache tz_alias _ _ e c' f g h
    | some cached =>
      rw [hc] at h
      dsimp only at h
      by_cases hex : is_expired cfg env.nowTime cached.created_at = true
      · rw [if_pos hex] at h
        exact build_fresh_error cfg env cache tz_alias _ _ e c' f g h
      · rw [if_neg hex] at h
        obtain ⟨hbad, _⟩ := Prod.mk.inj h
        exact absurd hbad (by simp)

set_option maxRecDepth 10000 in
theorem claim_C10_witness :
    (build_daily_message cfgW envErr [] (some 0) none).2.1 = ([] : Cache) :=
  claim_C10_error_cache_atomicity cfgW envErr [] (some 0) none (PyErr.transport 7)
    (build_daily_message cfgW envErr [] (some 0) none).2.1 2 0 (by decide)

/-- Fixture: fetch with data only two days before the target (0), empty
successes elsewhere. -/
def fetchC2 : ℤ → Except ℕ OuraDailyMetrics :=
  fun d => if d = -2 then Except.ok mGood else Except.ok mEmpty

/-- Fixture configuration with a 3-day fallback window. -/
def cfgC2 : Config := ⟨"UTC", 15, 3⟩

/-- Fixture environment around `fetchC2`. -/
def envC2 : Env := ⟨zdbUTC, fetchC2, fun _ => Except.ok "coach text", 0, 0⟩

/-- Success test on a fetch outcome. -/
def isOkE : Except ℕ OuraDailyMetrics → Bool
  | Except.ok _ => true
  | Except.error _ => false

theorem isOkE_ne_error (x : Except ℕ OuraDailyMetrics) (h : isOkE x = true) :
    ∀ e, x ≠ Except.error e := by
  cases x with
  | ok m => intro e hc; exact Except.noConfusion hc
  | error e' => exact absurd h (by simp [isOkE])

/-- C2: fallback scan preference.  The scan visits offsets
`0 .. max 0 fallback_days` over `candidate = target - offset` and returns
the fetched metrics with their candidate date for the smallest offset whose
fetch succeeds with a non-empty record, regardless of what older offsets
would return; in particular, with `fallback_days = 3` and data only at
`target - 2` (nearer dates empty but successful), the built payload's
resolved date is `target - 2` and differs from the requested date. -/
theorem claim_C2_fallback_scan_preference :
    (∀ (fetch : ℤ → Except ℕ OuraDailyMetrics) (days target : ℤ) (o₀ : ℕ)
        (m : OuraDailyMetrics),
      o₀ ≤ (max 0 days).toNat →
      fetch (target - (o₀ : ℤ)) = Except.ok m →
      truthyMetrics m = true →
      (∀ o, o < o₀ → goodAt fetch target o = false) →
      (fetch_metrics_with_fallback fetch days target).1 =
        Except.ok (m, target - (o₀ : ℤ))) ∧
    ((build_daily_message cfgC2 envC2 [] (some 0) none).1.map Payload.date_iso =
        Except.ok (-2) ∧
      (build_daily_message cfgC2 envC2 [] (some 0) none).1.map Payload.requested_date_iso =
        Except.ok 0 ∧
      (0 : ℤ) ≠ -2) := by
  constructor
  · intro fetch days target o₀ m ho hf ht hbad
    rw [fetch_metrics_with_fallback, List.range_eq_range']
    rw [scan_first_good fetch target o₀ m hf ht ((max 0 days).toNat + 1) 0 none
      (Nat.zero_le o₀) (by omega) (fun o _ h₂ => hbad o h₂)]
  · exact ⟨by decide, by decide, by decide⟩

set_option maxRecDepth 10000 in
theorem claim_C2_witness :
    (fetch_metrics_with_fallback fetchC2 3 0).1 = Except.ok (mGood, -2) :=
  claim_C2_fallback_scan_preference.1 fetchC2 3 0 2 mGood (by decide) (by decide)
    (by decide) (by decide)

/-- Fixture: target date fetch raises exception 5, earlier dates have data. -/
def fetchRecover : ℤ → Except ℕ OuraDailyMetrics :=
  fun d => if d = 0 then Except.error 5 else Except.ok mGood

/-- Fixture: target date fetch raises exception 5, earlier dates succeed
with no data. -/
def fetchLastErr : ℤ → Except ℕ OuraDailyMetrics :=
  fun d => if d = 0 then Except.error 5 else Except.ok mEmpty

/-- Fixture: every fetch succeeds with no data. -/
def fetchAllEmpty : ℤ → Except ℕ OuraDailyMetrics := fun _ => Except.ok mEmpty

/-- C3: scan error propagation.  A Metrics Source failure at an offset is
remembered and the scan continues: (i) if the target date's fetch throws
but a later offset is the first good one, its data is returned and no error
propagates; (ii) if no offset yields data and some offset failed, the most
recently recorded error is raised; (iii) if every offset succeeds but none
has data, the distinct no-data error is raised — never a transport error. -/
theorem claim_C3_scan_error_propagation :
    (∀ (fetch : ℤ → Except ℕ OuraDailyMetrics) (days target : ℤ) (e : ℕ) (o₀ : ℕ)
        (m : OuraDailyMetrics),
      fetch target = Except.error e →
      o₀ ≤ (max 0 days).toNat →
      fetch (target - (o₀ : ℤ)) = Except.ok m →
      truthyMetrics m = true →
      (∀ o, o < o₀ → goodAt fetch target o = false) →
      (fetch_metrics_with_fallback fetch days target).1 =
        Except.ok (m, target - (o₀ : ℤ))) ∧
    (∀ (fetch : ℤ → Except ℕ OuraDailyMetrics) (days target : ℤ) (oe : ℕ) (e : ℕ),
      (∀ o, o ≤ (max 0 days).toNat → goodAt fetch target o = false) →
      oe ≤ (max 0 days).toNat →
      fetch (target - (oe : ℤ)) = Except.error e →
      (∀ o, o ≤ (max 0 days).toNat → oe < o → isOkE (fetch (target - (o : ℤ))) = true) →
      (fetch_metrics_with_fallback fetch days target).1 =
        Except.error (PyErr.transport e)) ∧
    (∀ (fetch : ℤ → Except ℕ OuraDailyMetrics) (days target : ℤ),
      (∀ o, o ≤ (max 0 days).toNat → isOkE (fetch (target - (o : ℤ))) = true) →
      (∀ o, o ≤ (max 0 days).toNat → goodAt fetch target o = false) →
      (fetch_metrics_with_fallback fetch days target).1 = Except.error PyErr.noData) := by
  refine ⟨?_, ?_, ?_⟩
  · intro fetch days target e o₀ m herr ho hf ht hbad
    rw [fetch_metrics_with_fallback, List.range_eq_range']
    rw [scan_first_good fetch target o₀ m hf ht ((max 0 days).toNat + 1) 0 none
      (Nat.zero_le o₀) (by omega) (fun o _ h₂ => hbad o h₂)]
  · intro fetch days target oe e hbad hoe herr hok
    rw [fetch_metrics_with_fallback, List.range_eq_range']
    rw [scan_all_bad fetch target _ none
      (fun o ho => hbad o (by have := List.mem_range'_1.mp ho; omega))]
    rw [scanLast_last_error fetch target oe e herr ((max 0 days).toNat + 1) 0 none
      (Nat.zero_le oe) (by omega)
      (fun o h₁ h₂ e' => isOkE_ne_error _ (hok o (by omega) h₁) e')]
  · intro fetch days target hok hbad
    rw [fetch_metrics_with_fallback, List.range_eq_range']
    rw [scan_all_bad fetch target _ none
      (fun o ho => hbad o (by have := List.mem_range'_1.mp ho; omega))]
    rw [scanLast_all_ok fetch target _ none
      (fun o ho e => isOkE_ne_error _
        (hok o (by have := List.mem_range'_1.mp ho; omega)) e)]

set_option maxRecDepth 10000 in
theorem claim_C3_witness :
    (fetch_metrics_with_fallback fetchRecover 1 0).1 = Except.ok (mGood, -1) ∧
    (fetch_metrics_with_fallback fetchLastErr 1 0).1 = Except.error (PyErr.transport 5) ∧
    (fetch_metrics_with_fallback fetchAllEmpty 1 0).1 = Except.error PyErr.noData :=
  ⟨claim_C3_scan_error_propagation.1 fetchRecover 1 0 5 1 mGood (by decide) (by decide)
      (by decide) (by decide) (by decide),
   claim_C3_scan_error_propagation.2.1 fetchLastErr 1 0 0 5 (by decide) (by decide)
      (by decide) (by decide),
   claim_C3_scan_error_propagation.2.2 fetchAllEmpty 1 0 (by decide) (by decide)⟩

theorem assoc_append (l₁ l₂ : List (String × Val)) (k : String) :
    assoc (l₁ ++ l₂) k =
      match assoc l₁ k with
      | some v => some v
      | none => assoc l₂ k := by
  induction l₁ with
  | nil => rfl
  | cons p rest ih =>
    obtain ⟨k', v⟩ := p
    by_cases hk : k' = k
    · simp [assoc, hk]
    · simp [assoc, hk, ih]

/-- C5 counterexample: a non-empty readiness record without a `score` field
still puts the `readiness_score` key into the summary (with a null value),
so a summary key can be present although the corresponding named source
field did not exist. -/
theorem claim_C5_counterexample :
    (assoc (summarise_metrics ⟨some [("temperature", Val.vnum (Q.ofInt 1))], none, none⟩)
        "readiness_score").isSome = true ∧
    assoc [("temperature", Val.vnum (Q.ofInt 1))] "score" = none := by decide

/-- C5 (amended): presence of summary keys.  `readiness_score`,
`sleep_score`, `activity_score` and `steps` are present exactly when the
corresponding record is present and non-empty (carrying a null value when
the source field is missing); only `sleep_duration_hours` requires its
source field, being present exactly when the sleep record is non-empty and
carries a non-null `total_sleep_duration`. -/
theorem claim_C5_summary_key_presence (m : OuraDailyMetrics) :
    (assoc (summarise_metrics m) "readiness_score").isSome = truthy m.readiness ∧
    (assoc (summarise_metrics m) "sleep_score").isSome = truthy m.sleep ∧
    (assoc (summarise_metrics m) "activity_score").isSome = truthy m.activity ∧
    (assoc (summarise_metrics m) "steps").isSome = truthy m.activity ∧
    (assoc (summarise_metrics m) "sleep_duration_hours").isSome =
      (truthy m.sleep &&
        decide (pyGet (m.sleep.getD []) "total_sleep_duration" ≠ Val.vnull)) := by
  obtain ⟨ro, so, ao⟩ := m
  rcases so with _ | (_ | ⟨ps, s⟩)
  · rcases ro with _ | (_ | ⟨pr, r⟩) <;> rcases ao with _ | (_ | ⟨pa, a⟩) <;>
      simp_all [summarise_metrics, assoc_append, assoc, truthy]
  · rcases ro with _ | (_ | ⟨pr, r⟩) <;> rcases ao with _ | (_ | ⟨pa, a⟩) <;>
      simp_all [summarise_metrics, assoc_append, assoc, truthy]
  · rcases hds : pyGet (ps :: s) "total_sleep_duration" with _ | dq <;>
      rcases ro with _ | (_ | ⟨pr, r⟩) <;> rcases ao with _ | (_ | ⟨pa, a⟩) <;>
        simp_all [summarise_metrics, assoc_append, assoc, truthy]

theorem qdiv3600_toRat (d : Q) : (qdiv d (Q.ofInt 3600)).toRat = d.toRat / 3600 := by
  simp only [qdiv, Q.ofInt]
  rw [if_neg (by omega)]
  simp only [Q.toRat, mul_one]
  push_cast
  rw [div_div]

/-- C6: sleep duration conversion.  When the sleep record carries a numeric
`total_sleep_duration` d, the summary's `sleep_duration_hours` is
`round(d / 3600, 2)`; the executable rounding agrees with the exact
rational two-decimal round-half-even on every well-formed fraction; and
when the field is absent (or the whole record is), the key is absent. -/
theorem claim_C6_sleep_duration_conversion :
    (∀ (m : OuraDailyMetrics) (r : Record) (d : Q),
      m.sleep = some r →
      assoc r "total_sleep_duration" = some (Val.vnum d) →
      assoc (summarise_metrics m) "sleep_duration_hours" =
        some (Val.vnum (pyRound2 (qdiv d (Q.ofInt 3600))))) ∧
    (∀ d : Q, 0 < d.den →
      (pyRound2 (qdiv d (Q.ofInt 3600))).toRat = round2Rat (d.toRat / 3600)) ∧
    (∀ m : OuraDailyMetrics,
      (∀ r, m.sleep = some r → assoc r "total_sleep_duration" = none) →
      assoc (summarise_metrics m) "sleep_duration_hours" = none) := by
  refine ⟨?_, ?_, ?_⟩
  · intro m r d hs hd
    obtain ⟨ro, so, ao⟩ := m
    cases hs
    have hpy : pyGet r "total_sleep_duration" = Val.vnum d := by
      rw [pyGet, hd]
    have hne : r.isEmpty = false := by
      cases r with
      | nil => simp [assoc] at hd
      | cons p rest => rfl
    rcases ro with _ | (_ | ⟨pr, rr⟩) <;> rcases ao with _ | (_ | ⟨pa, aa⟩) <;>
      simp_all [summarise_metrics, assoc_append, assoc]
  · intro d hden
    have hpos : 0 < (qdiv d (Q.ofInt 3600)).den := by
      simp only [qdiv, Q.ofInt]
      rw [if_neg (by omega)]
      positivity
    rw [pyRound2_toRat _ hpos, qdiv3600_toRat]
  · intro m habs
    obtain ⟨ro, so, ao⟩ := m
    rcases so with _ | s
    · rcases ro with _ | (_ | ⟨pr, r⟩) <;> rcases ao with _ | (_ | ⟨pa, a⟩) <;>
        simp_all [summarise_metrics, assoc_append, assoc]
    · have hd : assoc s "total_sleep_duration" = none := habs s rfl
      have hpy : pyGet s "total_sleep_duration" = Val.vnull := by
        rw [pyGet, hd]
      rcases ro with _ | (_ | ⟨pr, r⟩) <;> rcases ao with _ | (_ | ⟨pa, a⟩) <;>
        rcases s with _ | ⟨ps, s'⟩ <;>
          simp_all [summarise_metrics, assoc_append, assoc, hpy]

/-- Fixture: metrics with a sleep record carrying a score and a 27000-second
sleep duration. -/
def mSleep : OuraDailyMetrics :=
  ⟨none, some [("score", Val.vnum (Q.ofInt 70)),
               ("total_sleep_duration", Val.vnum (Q.ofInt 27000))], none⟩

theorem claim_C6_witness :
    assoc (summarise_metrics mSleep) "sleep_duration_hours" =
      some (Val.vnum (pyRound2 (qdiv (Q.ofInt 27000) (Q.ofInt 3600)))) ∧
    (pyRound2 (qdiv (Q.ofInt 27000) (Q.ofInt 3600))).toRat =
      round2Rat ((Q.ofInt 27000).toRat / 3600) ∧
    assoc (summarise_metrics mGood) "sleep_duration_hours" = none :=
  ⟨claim_C6_sleep_duration_conversion.1 mSleep
      [("score", Val.vnum (Q.ofInt 70)), ("total_sleep_duration", Val.vnum (Q.ofInt 27000))]
      (Q.ofInt 27000) rfl (by decide),
   claim_C6_sleep_duration_conversion.2.1 (Q.ofInt 27000) (by decide),
   claim_C6_sleep_duration_conversion.2.2 mGood (fun r hr => Option.noConfusion hr)⟩

/-- Fixture summary with readiness 80 and sleep 70. -/
def sum8070 : List (String × Val) :=
  [("readiness_score", Val.vnum (Q.ofInt 80)), ("sleep_score", Val.vnum (Q.ofInt 70))]

/-- C7: fallback text synthesis.  For every summary the fallback message is
exactly the opening paragraph, a readiness-score paragraph iff
`readiness_score` is present non-null, a sleep-score paragraph iff
`sleep_score` is present non-null, then a closing paragraph whose wording
depends on whether any score paragraph was added, then the one fixed
bulleted action item; in particular for scores 80 and 70 it contains both
score sentences and exactly one `<li>` bullet. -/
theorem claim_C7_fallback_text_synthesis :
    (∀ summary : List (String × Val),
      build_fallback_message summary =
        String.join
          ((["Here\x27s a gentle check-in based on your latest Oura data."] ++
            (if pyGet summary "readiness_score" ≠ Val.vnull
              then ["Readiness score: " ++ valStr (pyGet summary "readiness_score") ++ "."]
              else []) ++
            (if pyGet summary "sleep_score" ≠ Val.vnull
              then ["Sleep score: " ++ valStr (pyGet summary "sleep_score") ++ "."]
              else []) ++
            [if pyGet summary "readiness_score" = Val.vnull ∧
                pyGet summary "sleep_score" = Val.vnull
              then "Keep looking after yourself today."
              else "Keep listening to your body and make thoughtful adjustments as needed."]).map
            (fun p => "<p>" ++ p ++ "</p>")) ++
        "<ul><li>Take one simple action that respects how you feel right now.</li></ul>") ∧
    (countSub "<li>".data (build_fallback_message sum8070).data = 1 ∧
      containsSub "Readiness score: 80.".data (build_fallback_message sum8070).data = true ∧
      containsSub "Sleep score: 70.".data (build_fallback_message sum8070).data = true) := by
  constructor
  · intro summary
    rcases hr : pyGet summary "readiness_score" with _ | rq <;>
      rcases hs : pyGet summary "sleep_score" with _ | sq <;>
        simp [build_fallback_message, hr, hs]
  · refine ⟨?_, ?_, ?_⟩
    · set_option maxRecDepth 4000 in decide
    · set_option maxRecDepth 4000 in decide
    · set_option maxRecDepth 4000 in decide

/-- Modelled from the stdlib zoneinfo collaborator: `ZoneInfo(key)` raises
`ValueError` — not `ZoneInfoNotFoundError` — for keys that are absolute
paths or escape the search path.  A representative fragment of its
behavior: "UTC" resolves; "../UTC", "/etc/localtime" and "UTC/" are
malformed keys raising `ValueError`; any other key raises
`ZoneInfoNotFoundError`. -/
def zdbStd : String → ZoneLookup := fun s =>
  if s = "UTC" then ZoneLookup.found
  else if s = "../UTC" ∨ s = "/etc/localtime" ∨ s = "UTC/" then ZoneLookup.invalid
  else ZoneLookup.notFound

/-- Fixture environment over the stdlib-modelled zone database. -/
def envStd : Env := ⟨zdbStd, fun _ => Except.ok mGood, fun _ => Except.ok "coach text", 0, 0⟩

/-- C8 counterexample: timezone resolution does not return without raising
for every caller-supplied alias.  The alias "../UTC" normalises to a key on
which `ZoneInfo` raises `ValueError`; `except ZoneInfoNotFoundError` does
not catch it, so `_get_timezone` raises and the error propagates out of
`build_daily_message`. -/
theorem claim_C8_counterexample :
    get_timezone zdbStd "UTC" (some "../UTC") = Except.error () ∧
    (build_daily_message cfgW envStd [] (some 0) (some "../UTC")).1 =
      Except.error PyErr.badTzKey := by
  constructor
  · decide
  · decide

/-- C8 (amended): for every zoneinfo behavior, configured default and
caller alias — if the normalised key resolves, it becomes the cache key
with no warning; if `ZoneInfo` raises `ZoneInfoNotFoundError` (the only
exception the code catches), the resolver logs a warning and returns the
UTC timezone with cache key "UTC", so the cache key is never the invalid
alias; but if the key is malformed (`ZoneInfo` raises `ValueError`), that
error propagates uncaught.  Concretely, the unknown alias Not/AZone
resolves to UTC with key "UTC" and a logged warning, without raising. -/
theorem claim_C8_timezone_resolution (zoneDB : String → ZoneLookup)
    (app_timezone : String) (tz_alias : Option String) :
    (zoneDB (normalizeTzKey app_timezone tz_alias) = ZoneLookup.found →
      get_timezone zoneDB app_timezone tz_alias =
        Except.ok (TZ.zone (normalizeTzKey app_timezone tz_alias),
          normalizeTzKey app_timezone tz_alias, false)) ∧
    (zoneDB (normalizeTzKey app_timezone tz_alias) = ZoneLookup.notFound →
      get_timezone zoneDB app_timezone tz_alias = Except.ok (TZ.utc, "UTC", true)) ∧
    (zoneDB (normalizeTzKey app_timezone tz_alias) = ZoneLookup.invalid →
      get_timezone zoneDB app_timezone tz_alias = Except.error ()) ∧
    get_timezone zdbStd "UTC" (some "Not/AZone") = Except.ok (TZ.utc, "UTC", true) := by
  refine ⟨?_, ?_, ?_, by decide⟩ <;>
  · intro hdb
    rw [get_timezone]
    rw [hdb]

set_option maxRecDepth 4000 in
theorem claim_C8_witness :
    get_timezone zdbStd "UTC" none =
      Except.ok (TZ.zone (normalizeTzKey "UTC" none), normalizeTzKey "UTC" none, false) ∧
    get_timezone zdbStd "UTC" (some "Not/AZone") = Except.ok (TZ.utc, "UTC", true) ∧
    get_timezone zdbStd "UTC" (some "/etc/localtime") = Except.error () :=
  ⟨(claim_C8_timezone_resolution zdbStd "UTC" none).1 (by decide),
   (claim_C8_timezone_resolution zdbStd "UTC" (some "Not/AZone")).2.1 (by decide),
   (claim_C8_timezone_resolution zdbStd "UTC" (some "/etc/localtime")).2.2.1 (by decide)⟩

instance : IsTotal (String × J) (fun a b : String × J => a.1 ≤ b.1) :=
  ⟨fun a b => le_total a.1 b.1⟩

instance : IsTrans (String × J) (fun a b : String × J => a.1 ≤ b.1) :=
  ⟨fun _ _ _ h₁ h₂ => le_trans h₁ h₂⟩

instance : IsAntisymm (String × J) (fun a b : String × J => a.1 < b.1) :=
  ⟨fun _ _ h₁ h₂ => absurd (lt_trans h₁ h₂) (lt_irrefl _)⟩

theorem canonFields_eq_map (l : List (String × J)) :
    canonFields l = l.map (fun p => (p.1, canon p.2)) := by
  induction l with
  | nil => rfl
  | cons p rest ih =>
    obtain ⟨k, v⟩ := p
    simp [canonFields, ih]

theorem sortPairs_sorted (l : List (String × J)) :
    List.Sorted (fun a b : String × J => a.1 ≤ b.1) (sortPairs l) :=
  List.sorted_insertionSort _ l

theorem sorted_strict_of_key_nodup (l : List (String × J))
    (hs : List.Sorted (fun a b : String × J => a.1 ≤ b.1) l)
    (hnd : (l.map Prod.fst).Nodup) :
    List.Sorted (fun a b : String × J => a.1 < b.1) l := by
  induction l with
  | nil => simp
  | cons p rest ih =>
    rw [List.sorted_cons] at hs ⊢
    rw [List.map_cons, List.nodup_cons] at hnd
    refine ⟨fun b hb => lt_of_le_of_ne (hs.1 b hb) ?_, ih hs.2 hnd.2⟩
    intro heq
    exact hnd.1 (by rw [heq]; exact List.mem_map_of_mem Prod.fst hb)

theorem sortPairs_perm_invariant (l₁ l₂ : List (String × J))
    (hperm : l₁.Perm l₂) (hnd : (l₁.map Prod.fst).Nodup) :
    sortPairs l₁ = sortPairs l₂ := by
  have hp : (sortPairs l₁).Perm (sortPairs l₂) :=
    (List.perm_insertionSort _ l₁).trans (hperm.trans (List.perm_insertionSort _ l₂).symm)
  have hnd₁ : ((sortPairs l₁).map Prod.fst).Nodup :=
    (((List.perm_insertionSort _ l₁).map Prod.fst).symm).nodup_iff.mp hnd
  have hnd₂ : ((sortPairs l₂).map Prod.fst).Nodup :=
    ((hp.map Prod.fst).symm).nodup_iff.mpr hnd₁
  exact List.eq_of_perm_of_sorted hp
    (sorted_strict_of_key_nodup _ (sortPairs_sorted l₁) hnd₁)
    (sorted_strict_of_key_nodup _ (sortPairs_sorted l₂) hnd₂)

theorem canon_obj_perm_invariant (l₁ l₂ : List (String × J))
    (hperm : l₁.Perm l₂) (hnd : (l₁.map Prod.fst).Nodup) :
    canon (J.obj l₁) = canon (J.obj l₂) := by
  rw [canon, canon, canonFields_eq_map, canonFields_eq_map]
  refine congrArg J.obj (sortPairs_perm_invariant _ _ (hperm.map _) ?_)
  rw [List.map_map]
  exact hnd

/-- The field list of an object document. -/
def objFields : J → List (String × J)
  | J.obj l => l
  | _ => []

/-- C9: prompt determinism and structure.  The prompt builder is a pure
function of metrics, summary and resolved date; it always returns exactly
two blocks, system-role first, user-role second; the user block is the
`sort_keys=True` serialization of the object holding the date, summary and
raw metrics; that serialization emits object keys in sorted order, and two
field lists that are permutations of each other (with distinct keys, as
Python dict items are) serialize identically. -/
theorem claim_C9_prompt_determinism_structure :
    (∀ (m m' : OuraDailyMetrics) (s s' : List (String × Val)) (d d' : ℤ),
      m = m' → s = s' → d = d' → build_prompt m s d = build_prompt m' s' d') ∧
    (∀ (m : OuraDailyMetrics) (s : List (String × Val)) (d : ℤ),
      (build_prompt m s d).length = 2 ∧
      (build_prompt m s d).map Msg.role = ["system", "user"] ∧
      (build_prompt m s d).getLast? = some
        ⟨"user", Content.jsonText (canon (J.obj
          [("date", J.str (toString d)),
           ("summary", J.obj (s.map (fun p => (p.1, jOfVal p.2)))),
           ("raw_metrics", J.obj
             [("readiness", jOfRecord m.readiness),
              ("sleep", jOfRecord m.sleep),
              ("activity", jOfRecord m.activity)])]))⟩) ∧
    (∀ l : List (String × J),
      List.Sorted (fun a b : String × J => a.1 ≤ b.1) (objFields (canon (J.obj l)))) ∧
    (∀ l₁ l₂ : List (String × J), l₁.Perm l₂ → (l₁.map Prod.fst).Nodup →
      canon (J.obj l₁) = canon (J.obj l₂)) := by
  refine ⟨?_, ?_, ?_, ?_⟩
  · intro m m' s s' d d' hm hs hd
    rw [hm, hs, hd]
  · intro m s d
    exact ⟨rfl, rfl, rfl⟩
  · intro l
    rw [canon, objFields]
    exact sortPairs_sorted _
  · exact canon_obj_perm_invariant

set_option maxRecDepth 4000 in
theorem claim_C9_witness :
    build_prompt mGood sum8070 0 = build_prompt mGood sum8070 0 ∧
    canon (J.obj [("b", J.null), ("a", J.num (Q.ofInt 1))]) =
      canon (J.obj [("a", J.num (Q.ofInt 1)), ("b", J.null)]) :=
  ⟨claim_C9_prompt_determinism_structure.1 mGood mGood sum8070 sum8070 0 0 rfl rfl rfl,
   claim_C9_prompt_determinism_structure.2.2.2
     [("b", J.null), ("a", J.num (Q.ofInt 1))]
     [("a", J.num (Q.ofInt 1)), ("b", J.null)]
     (List.Perm.swap _ _ _) (by decide)⟩
